import Mathlib

/-!
# Verification of the Pyc-Man ghost/player engine

A shallow embedding of the grid map, movement, collision and ghost
state-machine logic of the Pyc-Man sources (`src/game_map.py`,
`src/ghost.py`, `src/pacman.py`, `src/ghost_init.py`, `position.py`),
together with theorems settling the specification claims about them.

Conventions of the embedding:
* Python floats are embedded as rationals (`ℚ`); all the arithmetic the
  claims touch is exact in the sources.
* `math.sqrt` appears in the sources only inside order comparisons
  (`distance < r`, `distance < best`); since `sqrt` is strictly monotone
  on nonnegative reals, every such comparison is embedded as the
  corresponding comparison of squared distances.
* Python's `random.choice(xs)` is embedded by threading an arbitrary
  sample index `rng : ℕ` and taking `xs[rng % len(xs)]`, the injectable
  random source the design notes call for.
-/

namespace PycMan

/-! ## Settings (`src/settings.py`) -/

/-- `TILE_SIZE = 30` from `src/settings.py`. -/
def TILE_SIZE : ℚ := 30

/-- `GHOST_SPEED = 1.9` from `src/settings.py`. -/
def GHOST_SPEED : ℚ := 19 / 10

/-- `TUNNEL_ROW = 10` from `src/settings.py`. -/
def TUNNEL_ROW : ℤ := 10

/-- `TUNNEL_SPEED_MULTIPLIER = 0.4` from `src/settings.py`. -/
def TUNNEL_SPEED_MULTIPLIER : ℚ := 2 / 5

/-- `GHOST_HOUSE_EXIT_X = 9.5` from `src/settings.py`. -/
def GHOST_HOUSE_EXIT_X : ℚ := 19 / 2

/-- `GHOST_HOUSE_EXIT_Y = 8.5` from `src/settings.py`. -/
def GHOST_HOUSE_EXIT_Y : ℚ := 17 / 2

/-- `PINKY_TILES_AHEAD = 4` from `src/settings.py`. -/
def PINKY_TILES_AHEAD : ℚ := 4

/-- `INKY_OFFSET_TILES = 2` from `src/settings.py`. -/
def INKY_OFFSET_TILES : ℚ := 2

/-! ## Directions

Modelled from the spec: the module `src/direction.py` is not among the
sources (only its importers are).  Per spec §3, `Direction` is one of
{Up, Down, Left, Right, None} represented as a unit grid vector, with
"opposite" defined pairwise (Up↔Down, Left↔Right); the rest of the code
(screen coordinates with `y` growing downward, e.g. `Ghost._exit_house`
moving up via `y -= speed`) fixes the vectors. -/

inductive Direction where
  | UP
  | DOWN
  | LEFT
  | RIGHT
  | NONE
  deriving DecidableEq, Repr

/-- The unit grid vector of a direction (`Direction.value` in Python);
screen coordinates, `y` grows downward. -/
def Direction.value : Direction → ℤ × ℤ
  | .UP => (0, -1)
  | .DOWN => (0, 1)
  | .LEFT => (-1, 0)
  | .RIGHT => (1, 0)
  | .NONE => (0, 0)

/-- `Ghost._reverse_direction` (`src/ghost.py` 138-147), as a pure
function on directions: pairwise opposites, anything else unchanged. -/
def reverseDirection : Direction → Direction
  | .UP => .DOWN
  | .DOWN => .UP
  | .LEFT => .RIGHT
  | .RIGHT => .LEFT
  | .NONE => .NONE

/-- The fixed enumeration order of `Ghost._choose_direction`
(`src/ghost.py` 259-264): Up, Down, Left, Right. -/
def directionOrder : List Direction := [.UP, .DOWN, .LEFT, .RIGHT]

/-! ## Positions (`position.py`) -/

/-- `Position`: a continuous pixel position (`position.py`). -/
structure Position where
  x : ℚ
  y : ℚ
  deriving DecidableEq, Repr

namespace Position

/-- `Position.to_grid` (`position.py` 16-18): `int(x // TILE_SIZE)`,
floor division. -/
def to_grid (p : Position) : ℤ × ℤ :=
  (⌊p.x / TILE_SIZE⌋, ⌊p.y / TILE_SIZE⌋)

/-- `Position.get_center` (`position.py` 20-22). -/
def get_center (p : Position) : ℚ × ℚ :=
  (p.x + TILE_SIZE / 2, p.y + TILE_SIZE / 2)

/-- The square of `Position.distance_to` (`position.py` 24-28): the
source computes `sqrt((cx1-cx2)^2 + (cy1-cy2)^2)` of the two
`get_center` points and uses it only in order comparisons, which the
squared distance decides identically. -/
def dist2 (p q : Position) : ℚ :=
  ((p.get_center).1 - (q.get_center).1) ^ 2 +
    ((p.get_center).2 - (q.get_center).2) ^ 2

end Position

/-! ## The grid map (`src/game_map.py`) -/

/-- `GameMap`: the cell grid, `1` = wall, `0` = path, `2` = pellet,
`3` = power pellet (`src/game_map.py`). -/
structure GameMap where
  layout : List (List ℕ)
  deriving Repr

namespace GameMap

/-- `GameMap.height` (`src/game_map.py` 81-84). -/
def height (m : GameMap) : ℕ := m.layout.length

/-- `GameMap.width` (`src/game_map.py` 86-89): the length of row `0`. -/
def width (m : GameMap) : ℕ := (m.layout.headD []).length

/-- Row `gy`, cell `gx` of the layout; callers only use it inside the
bounds checks of the source. -/
def cellAt (m : GameMap) (gx gy : ℤ) : ℕ :=
  ((m.layout.getD gy.toNat []).getD gx.toNat 1)

/-- `GameMap.is_wall` (`src/game_map.py` 48-52): in bounds, whether the
cell is `1`; out of bounds, `True`. -/
def is_wall (m : GameMap) (gx gy : ℤ) : Bool :=
  if 0 ≤ gy ∧ gy < (m.height : ℤ) ∧ 0 ≤ gx ∧ gx < (m.width : ℤ) then
    m.cellAt gx gy == 1
  else
    true

/-- `GameMap.get_cell` (`src/game_map.py` 54-58): in bounds, the cell
value; out of bounds, `1`. -/
def get_cell (m : GameMap) (gx gy : ℤ) : ℕ :=
  if 0 ≤ gy ∧ gy < (m.height : ℤ) ∧ 0 ≤ gx ∧ gx < (m.width : ℤ) then
    m.cellAt gx gy
  else
    1

/-- `GameMap.is_walkable` (`src/game_map.py` 77-79). -/
def is_walkable (m : GameMap) (gx gy : ℤ) : Bool :=
  ! m.is_wall gx gy

/-- Python `int()` on a rational: truncation toward zero. -/
def ratTrunc (q : ℚ) : ℤ :=
  if 0 ≤ q then ⌊q⌋ else -⌊-q⌋

/-- `GameMap.pixel_to_grid` (`src/game_map.py` 65-69):
`int(pixel / TILE_SIZE)`, truncation toward zero. -/
def pixel_to_grid (_ : GameMap) (px py : ℚ) : ℤ × ℤ :=
  (ratTrunc (px / TILE_SIZE), ratTrunc (py / TILE_SIZE))

/-- `GameMap.grid_to_pixel` (`src/game_map.py` 71-75): the center of a
tile, `grid * TILE_SIZE + TILE_SIZE // 2` (with `30 // 2 = 15`). -/
def grid_to_pixel (_ : GameMap) (gx gy : ℤ) : ℚ × ℚ :=
  ((gx : ℚ) * TILE_SIZE + 15, (gy : ℚ) * TILE_SIZE + 15)

/-- `GameMap._is_visual_wall` (`src/game_map.py` 96-101): the renderer's
wall test, which treats out-of-bounds cells of the hard-coded tunnel row
`10` as open. -/
def is_visual_wall (m : GameMap) (gx gy : ℤ) : Bool :=
  if gy = 10 ∧ (gx < 0 ∨ gx ≥ (m.width : ℤ)) then
    false
  else
    m.is_wall gx gy

end GameMap

/-- The hard-coded maze layout of `GameMap.__init__`
(`src/game_map.py` 18-41). -/
def standardLayout : List (List ℕ) :=
  [[1, 1, 1, 1, 1, 1, 1, 1, 1, 1, 1, 1, 1, 1, 1, 1, 1, 1, 1],
   [1, 3, 2, 2, 2, 2, 2, 2, 2, 1, 2, 2, 2, 2, 2, 2, 2, 3, 1],
   [1, 2, 1, 1, 2, 1, 1, 1, 2, 1, 2, 1, 1, 1, 2, 1, 1, 2, 1],
   [1, 2, 1, 1, 2, 1, 1, 1, 2, 1, 2, 1, 1, 1, 2, 1, 1, 2, 1],
   [1, 2, 2, 2, 2, 2, 2, 2, 2, 2, 2, 2, 2, 2, 2, 2, 2, 2, 1],
   [1, 2, 1, 1, 2, 1, 2, 1, 1, 1, 1, 1, 2, 1, 2, 1, 1, 2, 1],
   [1, 2, 2, 2, 2, 1, 2, 2, 2, 1, 2, 2, 2, 1, 2, 2, 2, 2, 1],
   [1, 1, 1, 1, 2, 1, 1, 1, 0, 1, 0, 1, 1, 1, 2, 1, 1, 1, 1],
   [1, 1, 1, 1, 2, 1, 0, 0, 0, 0, 0, 0, 0, 1, 2, 1, 1, 1, 1],
   [1, 1, 1, 1, 2, 1, 0, 1, 1, 0, 1, 1, 0, 1, 2, 1, 1, 1, 1],
   [0, 0, 0, 0, 2, 0, 0, 1, 0, 0, 0, 1, 0, 0, 2, 0, 0, 0, 0],
   [1, 1, 1, 1, 2, 1, 0, 1, 1, 1, 1, 1, 0, 1, 2, 1, 1, 1, 1],
   [1, 1, 1, 1, 2, 1, 0, 0, 0, 0, 0, 0, 0, 1, 2, 1, 1, 1, 1],
   [1, 1, 1, 1, 2, 1, 2, 1, 1, 1, 1, 1, 2, 1, 2, 1, 1, 1, 1],
   [1, 2, 2, 2, 2, 2, 2, 2, 2, 1, 2, 2, 2, 2, 2, 2, 2, 2, 1],
   [1, 2, 1, 1, 2, 1, 1, 1, 2, 1, 2, 1, 1, 1, 2, 1, 1, 2, 1],
   [1, 3, 2, 1, 2, 2, 2, 2, 2, 0, 2, 2, 2, 2, 2, 1, 2, 3, 1],
   [1, 1, 2, 1, 2, 1, 2, 1, 1, 1, 1, 1, 2, 1, 2, 1, 2, 1, 1],
   [1, 2, 2, 2, 2, 1, 2, 2, 2, 1, 2, 2, 2, 1, 2, 2, 2, 2, 1],
   [1, 2, 1, 1, 1, 1, 1, 1, 2, 1, 2, 1, 1, 1, 1, 1, 1, 2, 1],
   [1, 2, 2, 2, 2, 2, 2, 2, 2, 2, 2, 2, 2, 2, 2, 2, 2, 2, 1],
   [1, 1, 1, 1, 1, 1, 1, 1, 1, 1, 1, 1, 1, 1, 1, 1, 1, 1, 1]]

/-- The map built by `GameMap.__init__`. -/
def standardMap : GameMap := ⟨standardLayout⟩

/-! ## Ghosts (`src/ghost.py`) -/

/-- `GhostHouseState` (`src/ghost.py` 20-25). -/
inductive GhostHouseState where
  | IN_HOUSE
  | EXITING
  | ACTIVE
  deriving DecidableEq, Repr

/-- `GhostState` (`src/ghost.py` 28-34). -/
inductive GhostState where
  | SCATTER
  | CHASE
  | FRIGHTENED
  | EATEN
  deriving DecidableEq, Repr

/-- `GhostConfig` (`src/ghost.py` 37-44), restricted to the fields the
simulation reads (color and name are rendering data). -/
structure GhostConfig where
  start_position : Position
  starts_in_house : Bool := false

/-- The mutable state of a `Ghost` (`src/ghost.py` 53-82), restricted to
the fields the simulation reads (animation speed and color are rendering
data). -/
structure Ghost where
  position : Position
  spawn_position : Position
  direction : Direction
  speed : ℚ
  target : Option Position
  state : GhostState
  house_state : GhostHouseState
  frightened_timer : ℤ
  animation_frame : ℚ
  deriving DecidableEq, Repr

/-- `Ghost.__init__`'s house-exit point (`src/ghost.py` 74-77):
`(GHOST_HOUSE_EXIT_X * TILE_SIZE, GHOST_HOUSE_EXIT_Y * TILE_SIZE)`. -/
def houseExit : Position :=
  ⟨GHOST_HOUSE_EXIT_X * TILE_SIZE, GHOST_HOUSE_EXIT_Y * TILE_SIZE⟩

/-- `Ghost.__init__` (`src/ghost.py` 53-82). -/
def mkGhost (config : GhostConfig) : Ghost where
  position := config.start_position
  spawn_position := config.start_position
  direction := .RIGHT
  speed := GHOST_SPEED
  target := none
  state := .SCATTER
  house_state := if config.starts_in_house then .IN_HOUSE else .ACTIVE
  frightened_timer := 0
  animation_frame := 0

namespace Ghost

/-- `Ghost.in_ghost_house` (`src/ghost.py` 104-107). -/
def in_ghost_house (g : Ghost) : Bool :=
  g.house_state == .IN_HOUSE

/-- `Ghost.is_frightened` (`src/ghost.py` 109-112). -/
def is_frightened (g : Ghost) : Bool :=
  g.state == .FRIGHTENED

/-- `Ghost.is_eaten` (`src/ghost.py` 114-117). -/
def is_eaten (g : Ghost) : Bool :=
  g.state == .EATEN

/-- `Ghost.start_frightened` (`src/ghost.py` 125-131): no effect when
the state is already `EATEN` or `FRIGHTENED`. -/
def start_frightened (g : Ghost) : Ghost :=
  if g.state ≠ .EATEN ∧ g.state ≠ .FRIGHTENED then
    { g with
      state := .FRIGHTENED
      frightened_timer := 600
      speed := 1
      direction := reverseDirection g.direction }
  else
    g

/-- `Ghost.get_eaten` (`src/ghost.py` 133-136). -/
def get_eaten (g : Ghost) : Ghost :=
  { g with state := .EATEN, speed := 4 }

/-- `Ghost._respawn_in_house` (`src/ghost.py` 192-199). -/
def respawn_in_house (g : Ghost) : Ghost :=
  { g with
    state := .SCATTER
    speed := GHOST_SPEED
    position := g.spawn_position
    house_state := .EXITING
    direction := .UP }

/-- `Ghost._is_centered_on_tile` (`src/ghost.py` 201-209): within
tolerance `2.0` of the current tile's center on both axes. -/
def is_centered_on_tile (m : GameMap) (g : Ghost) : Bool :=
  let gr := g.position.to_grid
  let c := m.grid_to_pixel gr.1 gr.2
  |g.position.x - c.1| < 2 ∧ |g.position.y - c.2| < 2

/-- `Ghost._is_in_tunnel` (`src/ghost.py` 211-214). -/
def is_in_tunnel (g : Ghost) : Bool :=
  (g.position.to_grid).2 == TUNNEL_ROW

/-- `Ghost._is_opposite_direction` (`src/ghost.py` 216-221). -/
def is_opposite_direction (g : Ghost) (d : Direction) : Bool :=
  d.value.1 == -g.direction.value.1 && d.value.2 == -g.direction.value.2

/-- `Ghost._get_distance_for_direction` (`src/ghost.py` 223-240),
squared: `none` embeds Python's `None` (neighbor not walkable),
`some ⊤` embeds `float("inf")` (no target), `some ↑q` the squared
distance from the neighbor tile's center to the target. -/
def get_distance_for_direction (m : GameMap) (g : Ghost) (d : Direction) :
    Option (WithTop ℚ) :=
  match g.target with
  | none => some ⊤
  | some t =>
    let gr := g.position.to_grid
    let next_gx := gr.1 + d.value.1
    let next_gy := gr.2 + d.value.2
    if m.is_walkable next_gx next_gy then
      let c := m.grid_to_pixel next_gx next_gy
      some ((Position.dist2 ⟨c.1, c.2⟩ t : ℚ) : WithTop ℚ)
    else
      none

/-- The loop of `Ghost._choose_direction` (`src/ghost.py` 256-271):
fold over the candidate directions carrying `(best_direction,
best_distance)`, `best_distance` starting at `float("inf")` (`⊤`). -/
def choose_direction_loop (m : GameMap) (g : Ghost) :
    List Direction → Direction × WithTop ℚ → Direction × WithTop ℚ
  | [], acc => acc
  | d :: ds, (bd, bv) =>
    choose_direction_loop m g ds
      (if g.is_opposite_direction d then (bd, bv)
       else
         match g.get_distance_for_direction m d with
         | none => (bd, bv)
         | some v => if v < bv then (d, v) else (bd, bv))

/-- `Ghost._choose_random_direction` (`src/ghost.py` 275-293): collect
the non-reverse walkable directions and pick one; the sample index `rng`
embeds `random.choice`. -/
def choose_random_direction (m : GameMap) (rng : ℕ) (g : Ghost) : Ghost :=
  let valid := directionOrder.filter fun d =>
    !g.is_opposite_direction d &&
      (let gr := g.position.to_grid
       m.is_walkable (gr.1 + d.value.1) (gr.2 + d.value.2))
  if valid.isEmpty then g
  else { g with direction := valid.getD (rng % valid.length) g.direction }

/-- `Ghost._choose_direction` (`src/ghost.py` 242-273). -/
def choose_direction (m : GameMap) (rng : ℕ) (g : Ghost) : Ghost :=
  if ¬ g.is_centered_on_tile m then g
  else if g.state = .FRIGHTENED then g.choose_random_direction m rng
  else if g.target = none then g
  else
    { g with
      direction := (choose_direction_loop m g directionOrder (g.direction, ⊤)).1 }

/-- The candidate position computed by `Ghost._move`
(`src/ghost.py` 297-313): advance by the effective speed (tunnel
slowdown included) and wrap horizontally. -/
def move_candidate (m : GameMap) (g : Ghost) : Position :=
  let d := g.direction.value
  let speed_multiplier := if g.is_in_tunnel then TUNNEL_SPEED_MULTIPLIER else 1
  let effective_speed := g.speed * speed_multiplier
  let new_x := g.position.x + d.1 * effective_speed
  let new_y := g.position.y + d.2 * effective_speed
  let map_width_pixels := (m.width : ℚ) * TILE_SIZE
  let new_x :=
    if new_x < 0 then new_x + map_width_pixels
    else if new_x ≥ map_width_pixels then new_x - map_width_pixels
    else new_x
  ⟨new_x, new_y⟩

/-- `Ghost._move` (`src/ghost.py` 295-324): accept the candidate
position when its tile is walkable, else snap to the current tile's
center. -/
def move (m : GameMap) (g : Ghost) : Ghost :=
  let new_position := g.move_candidate m
  let ng := new_position.to_grid
  if m.is_walkable ng.1 ng.2 then
    { g with position := new_position }
  else
    let gr := g.position.to_grid
    let c := m.grid_to_pixel gr.1 gr.2
    { g with position := ⟨c.1, c.2⟩ }

/-- `Ghost._exit_house` (`src/ghost.py` 326-340): axis-by-axis homing to
the house exit, then become `ACTIVE` facing left. -/
def exit_house (g : Ghost) : Ghost :=
  if |g.position.x - houseExit.x| > 2 then
    if g.position.x < houseExit.x then
      { g with position := ⟨g.position.x + g.speed, g.position.y⟩ }
    else
      { g with position := ⟨g.position.x - g.speed, g.position.y⟩ }
  else if |g.position.y - houseExit.y| > 2 then
    { g with position := ⟨g.position.x, g.position.y - g.speed⟩ }
  else
    { g with house_state := .ACTIVE, direction := .LEFT }

/-- `Ghost.release_from_house` (`src/ghost.py` 342-345). -/
def release_from_house (g : Ghost) : Ghost :=
  if g.house_state = .IN_HOUSE then { g with house_state := .EXITING } else g

/-- `Ghost.return_to_house` (`src/ghost.py` 347-354). -/
def return_to_house (g : Ghost) : Ghost :=
  { g with
    position := g.spawn_position
    house_state := .IN_HOUSE
    direction := .RIGHT
    state := .SCATTER
    speed := GHOST_SPEED }

/-- Modelled from the spec: `Ghost.set_state` is called by
`set_ghost_modes` (`src/ghost_init.py` 60-62, `src/main.py` 73-75) and
its tests but is absent from `src/ghost.py`.  Per spec §4.5, the
broadcast switches the ghost to the new mode and, on a mode change,
reverses its direction exactly once. -/
def set_state (g : Ghost) (s : GhostState) (reverse : Bool) : Ghost :=
  { g with
    state := s
    direction := if reverse then reverseDirection g.direction else g.direction }

/-- Steps 1-2 of `Ghost.update` (`src/ghost.py` 152-161): advance the
animation frame (`(frame + 0.2) % 2`, Python's nonnegative float
modulo) and handle the frightened countdown. -/
def update_timers (g : Ghost) : Ghost :=
  let g := { g with
    animation_frame :=
      g.animation_frame + 1/5 - 2 * ⌊(g.animation_frame + 1/5) / 2⌋ }
  if g.state = .FRIGHTENED then
    let t := g.frightened_timer - 1
    if t ≤ 0 then
      { g with frightened_timer := t, state := .SCATTER, speed := GHOST_SPEED }
    else
      { g with frightened_timer := t }
  else g

/-- `Ghost.update` (`src/ghost.py` 149-190): timers, eaten-return,
house state machine, target selection, direction choice and movement.
`calcTarget` stands for the abstract `calculate_target` of the concrete
ghost subclass (it may read the ghost's own position, as Clyde's does);
`rng` is the random sample for the frightened branch. -/
def update (m : GameMap) (calcTarget : Ghost → ℚ → ℚ → ℤ × ℤ → ℚ × ℚ) (rng : ℕ)
    (g : Ghost) (pacman_x pacman_y : ℚ) (pacman_direction : ℤ × ℤ) : Ghost :=
  let g := g.update_timers
  if g.state = GhostState.EATEN ∧ Position.dist2 g.position houseExit < TILE_SIZE ^ 2 then
    g.respawn_in_house
  else if g.house_state = GhostHouseState.IN_HOUSE then g
  else if g.house_state = GhostHouseState.EXITING then g.exit_house
  else
    let t : ℚ × ℚ :=
      if g.state = GhostState.EATEN then (houseExit.x, houseExit.y)
      else if g.state = GhostState.FRIGHTENED then (0, 0)
      else calcTarget g pacman_x pacman_y pacman_direction
    let g := { g with target := some ⟨t.1, t.2⟩ }
    let g := g.choose_direction m rng
    g.move m

end Ghost

/-- `Inky.calculate_target` (`src/ghost.py` 509-526).  The `blinky`
argument is the optional peer reference (`self._blinky`), carrying the
peer's current position when present. -/
def inkyCalculateTarget (blinky : Option Position) (pacman_x pacman_y : ℚ)
    (pacman_direction : ℤ × ℤ) : ℚ × ℚ :=
  match blinky with
  | none => (pacman_x, pacman_y)
  | some b =>
    let offset_pixels := INKY_OFFSET_TILES * TILE_SIZE
    let intermediate_x := pacman_x + pacman_direction.1 * offset_pixels
    let intermediate_y := pacman_y + pacman_direction.2 * offset_pixels
    let vector_x := intermediate_x - b.x
    let vector_y := intermediate_y - b.y
    (b.x + vector_x * 2, b.y + vector_y * 2)

/-! ## The player (`src/pacman.py`) -/

/-- The mutable state of `PacMan` (`src/pacman.py` 24-46), restricted to
the fields the movement and collision steps read (input buffering,
animation and power-up bookkeeping are orthogonal to the claims). -/
structure PacMan where
  position : Position
  direction : Direction
  speed : ℚ
  speed_multiplier : ℚ
  score : ℤ
  lives : ℤ
  deriving DecidableEq, Repr

namespace PacMan

/-- `PacMan._move` (`src/pacman.py` 114-168): advance by the effective
speed, wrap horizontally, and clamp to the current tile's center when
the candidate moves past the center toward a non-walkable next tile.
The source's four directional `elif` branches each perform the same
snap and set `can_move = False`; they are folded into one
blocked-condition with a per-direction disjunction. -/
def move (m : GameMap) (p : PacMan) : PacMan :=
  if p.direction = Direction.NONE then p
  else
    let d := p.direction.value
    let effective_speed := p.speed * p.speed_multiplier
    let new_x := p.position.x + d.1 * effective_speed
    let new_y := p.position.y + d.2 * effective_speed
    let map_width_pixels := (m.width : ℚ) * TILE_SIZE
    let new_x :=
      if new_x < 0 then new_x + map_width_pixels
      else if new_x ≥ map_width_pixels then new_x - map_width_pixels
      else new_x
    let gr := m.pixel_to_grid p.position.x p.position.y
    let c := m.grid_to_pixel gr.1 gr.2
    let next_grid_x := gr.1 + d.1
    let next_grid_y := gr.2 + d.2
    let next_grid_x :=
      if next_grid_x < 0 then (m.width : ℤ) - 1
      else if next_grid_x ≥ (m.width : ℤ) then 0
      else next_grid_x
    if ¬ m.is_walkable next_grid_x next_grid_y ∧
        ((p.direction = Direction.RIGHT ∧ new_x > c.1) ∨
          (p.direction = Direction.LEFT ∧ new_x < c.1) ∨
          (p.direction = Direction.DOWN ∧ new_y > c.2) ∨
          (p.direction = Direction.UP ∧ new_y < c.2)) then
      { p with position := ⟨c.1, c.2⟩ }
    else { p with position := ⟨new_x, new_y⟩ }

/-- The squared distance of `PacMan._check_ghost_collisions`
(`src/pacman.py` 218): `sqrt((px-gx)^2 + (py-gy)^2)`, squared. -/
def ghostDist2 (p : PacMan) (g : Ghost) : ℚ :=
  (p.position.x - g.position.x) ^ 2 + (p.position.y - g.position.y) ^ 2

/-- One iteration of the loop of `PacMan._check_ghost_collisions`
(`src/pacman.py` 213-226): `hitbox_radius = TILE_SIZE / 2 * 0.8 = 12`,
and the test is `dist < hitbox_radius * 2`, i.e. squared `< 576`. -/
def ghostCollisionStep (p : PacMan) (g : Ghost) : PacMan × Ghost :=
  if p.ghostDist2 g < (TILE_SIZE / 2 * (4/5) * 2) ^ 2 then
    if g.is_frightened then
      ({ p with score := p.score + 200 }, g.get_eaten)
    else if !g.is_eaten && !g.in_ghost_house then
      ({ p with lives := p.lives - 1 }, g)
    else (p, g)
  else (p, g)

/-- `PacMan._check_ghost_collisions` (`src/pacman.py` 213-226): fold the
per-ghost step over the ghost list, mutating the player and each
ghost. -/
def check_ghost_collisions (p : PacMan) (ghosts : List Ghost) :
    PacMan × List Ghost :=
  ghosts.foldl
    (fun acc g =>
      let r := ghostCollisionStep acc.1 g
      (r.1, acc.2 ++ [r.2]))
    (p, [])

end PacMan

/-! ## Mode broadcast (`src/ghost_init.py`, duplicated in `src/main.py`) -/

/-- `set_ghost_modes` (`src/ghost_init.py` 44-62 = `src/main.py` 57-75):
skip frightened, eaten and in-house ghosts; set every other ghost to the
broadcast mode, reversing its direction when the mode changed.  Uses the
spec-modelled `Ghost.set_state`. -/
def setGhostModes (ghosts : List Ghost) (mode previous_mode : String) :
    List Ghost :=
  let mode_changed := mode ≠ previous_mode
  ghosts.map fun g =>
    if g.is_frightened || g.is_eaten || g.in_ghost_house then g
    else if mode = "SCATTER" then g.set_state .SCATTER mode_changed
    else if mode = "CHASE" then g.set_state .CHASE mode_changed
    else g

/-! ## Helper lemmas -/

/-- The tile center returned by `grid_to_pixel` lies in that tile:
`⌊(30·g + 15) / 30⌋ = g`. -/
theorem floor_center_div (gz : ℤ) :
    ⌊((gz : ℚ) * TILE_SIZE + 15) / TILE_SIZE⌋ = gz := by
  have h : ((gz : ℚ) * TILE_SIZE + 15) / TILE_SIZE = (gz : ℚ) + 1/2 := by
    rw [TILE_SIZE]; ring
  rw [h, Int.floor_int_add]
  norm_num

/-- A ghost standing at a tile center has that tile as its grid
position. -/
theorem to_grid_grid_to_pixel (m : GameMap) (gx gy : ℤ) :
    (Position.mk (m.grid_to_pixel gx gy).1 (m.grid_to_pixel gx gy).2).to_grid
      = (gx, gy) := by
  simp only [Position.to_grid, GameMap.grid_to_pixel]
  rw [floor_center_div, floor_center_div]

/-! ## Claim C10 -/

/-- C10: if a ghost's position lies in a walkable tile before
`Ghost._move`, it lies in a walkable tile after: the step either accepts
the advanced, horizontally wrapped candidate position when its tile is
walkable, or snaps the ghost to the center of its current tile, so a
ghost never ends in a wall tile. -/
theorem C10_move_preserves_walkable (m : GameMap) (g : Ghost)
    (h : m.is_walkable (g.position.to_grid).1 (g.position.to_grid).2 = true) :
    m.is_walkable (((g.move m).position).to_grid).1
      (((g.move m).position).to_grid).2 = true := by
  unfold Ghost.move
  by_cases hw : m.is_walkable (((g.move_candidate m).to_grid).1)
      (((g.move_candidate m).to_grid).2) = true
  · simp only [hw, if_true]
  · simp only [Bool.not_eq_true] at hw
    simp only [hw, Bool.false_eq_true, if_false]
    have hc := to_grid_grid_to_pixel m (g.position.to_grid).1
      (g.position.to_grid).2
    simp only [hc]
    exact h

/-- Witness for C10 at a concrete input: a ghost at (44, 45) in the
standard maze, one step left. -/
theorem C10_move_preserves_walkable_witness :
    GameMap.is_walkable standardMap 1 1 = true ∧
      standardMap.is_walkable
        ((((Ghost.mk ⟨44, 45⟩ ⟨44, 45⟩ .LEFT 2 none .SCATTER .ACTIVE 0 0).move
            standardMap).position).to_grid).1
        ((((Ghost.mk ⟨44, 45⟩ ⟨44, 45⟩ .LEFT 2 none .SCATTER .ACTIVE 0 0).move
            standardMap).position).to_grid).2 = true := by
  have hg : ((Position.mk 44 45).to_grid) = (1, 1) := by
    simp only [Position.to_grid, TILE_SIZE]
    norm_num
  refine ⟨by decide, C10_move_preserves_walkable standardMap _ ?_⟩
  show standardMap.is_walkable ((Position.mk 44 45).to_grid).1
    ((Position.mk 44 45).to_grid).2 = true
  rw [hg]
  decide

/-! ## Claim C8 -/

/-- C8: for every peer (Blinky) position, the Flanking (Inky) target is
the reflection `peer + 2·(intermediate − peer)` of the point
`intermediate` two tiles ahead of the player along the player's
direction, and when the peer reference is absent the target degrades to
the player's exact position (`Inky.calculate_target`,
`src/ghost.py` 509-526). -/
theorem C8_inky_flanking_target (b : Position) (px py : ℚ) (pd : ℤ × ℤ) :
    (inkyCalculateTarget (some b) px py pd =
        (b.x + 2 * ((px + pd.1 * (INKY_OFFSET_TILES * TILE_SIZE)) - b.x),
         b.y + 2 * ((py + pd.2 * (INKY_OFFSET_TILES * TILE_SIZE)) - b.y))) ∧
      inkyCalculateTarget none px py pd = (px, py) := by
  constructor
  · simp only [inkyCalculateTarget, Prod.mk.injEq]
    constructor <;> ring
  · rfl

/-! ## Claim C4 -/

/-- C4 fails as stated: a ghost that is already Frightened is also
exempt from `start_frightened` (`src/ghost.py` 127 tests
`not in [EATEN, FRIGHTENED]`), so its direction is not reversed and its
countdown is not restarted; here Blinky, frightened once (facing LEFT),
is frightened again and nothing changes. -/
theorem C4_counterexample :
    (Ghost.start_frightened (mkGhost ⟨⟨285, 255⟩, true⟩)).state ≠
        GhostState.EATEN ∧
      (Ghost.start_frightened (mkGhost ⟨⟨285, 255⟩, true⟩)).direction =
        Direction.LEFT ∧
      Ghost.start_frightened (Ghost.start_frightened (mkGhost ⟨⟨285, 255⟩, true⟩)) =
        Ghost.start_frightened (mkGhost ⟨⟨285, 255⟩, true⟩) := by
  refine ⟨by decide, by decide, by decide⟩

/-- C4 (amended): for every ghost whose state is neither Eaten nor
Frightened, `start_frightened` sets the state to Frightened, the
countdown to exactly 600 ticks, the speed to the frightened value 1,
and reverses the current direction; a ghost already Eaten or already
Frightened is exempt and left entirely unchanged. -/
theorem C4_start_frightened (g : Ghost) :
    (g.state ≠ GhostState.EATEN → g.state ≠ GhostState.FRIGHTENED →
        g.start_frightened =
          { g with
            state := .FRIGHTENED
            frightened_timer := 600
            speed := 1
            direction := reverseDirection g.direction }) ∧
      (g.state = GhostState.EATEN ∨ g.state = GhostState.FRIGHTENED →
        g.start_frightened = g) := by
  constructor
  · intro h1 h2
    simp only [Ghost.start_frightened, h1, h2, ne_eq, not_false_eq_true,
      and_self, if_true]
  · intro h
    have : ¬(g.state ≠ GhostState.EATEN ∧ g.state ≠ GhostState.FRIGHTENED) := by
      rcases h with h | h <;> simp [h]
    simp only [Ghost.start_frightened, this, if_false]

/-- Witness for C4 (amended) at a concrete input: freshly created
Blinky, state Scatter. -/
theorem C4_start_frightened_witness :
    (mkGhost ⟨⟨285, 255⟩, true⟩).start_frightened =
      { mkGhost ⟨⟨285, 255⟩, true⟩ with
        state := .FRIGHTENED
        frightened_timer := 600
        speed := 1
        direction := reverseDirection (mkGhost ⟨⟨285, 255⟩, true⟩).direction } :=
  (C4_start_frightened (mkGhost ⟨⟨285, 255⟩, true⟩)).1 (by decide) (by decide)

/-! ## Claim C7 -/

/-- C7 fails as stated: out-of-bounds queries on the tunnel row (row
10) also return Wall — `GameMap.get_cell`/`is_wall`/`is_walkable`
(`src/game_map.py` 48-58, 77-79) have no tunnel-row exception; the
query at (-1, 10) returns Wall/not-walkable although the horizontally
wrapped in-bounds cell (18, 10) is open. -/
theorem C7_counterexample :
    GameMap.get_cell standardMap (-1) 10 = 1 ∧
      GameMap.get_cell standardMap 18 10 = 0 ∧
      GameMap.is_walkable standardMap (-1) 10 = false ∧
      GameMap.is_walkable standardMap 18 10 = true := by
  refine ⟨by decide, by decide, by decide, by decide⟩

/-- C7 (amended): for every grid coordinate out of the map bounds —
the tunnel row included — the cell query returns Wall and `is_walkable`
returns false; the tunnel-row open-world exception exists only in the
renderer's visual wall test `_is_visual_wall`. -/
theorem C7_out_of_bounds_is_wall (m : GameMap) (gx gy : ℤ)
    (h : gx < 0 ∨ (m.width : ℤ) ≤ gx ∨ gy < 0 ∨ (m.height : ℤ) ≤ gy) :
    m.get_cell gx gy = 1 ∧ m.is_wall gx gy = true ∧
      m.is_walkable gx gy = false ∧
      (gy = 10 → gx < 0 ∨ (m.width : ℤ) ≤ gx → m.is_visual_wall gx gy = false) := by
  have hb : ¬(0 ≤ gy ∧ gy < (m.height : ℤ) ∧ 0 ≤ gx ∧ gx < (m.width : ℤ)) := by
    omega
  refine ⟨?_, ?_, ?_, ?_⟩
  · simp only [GameMap.get_cell, hb, if_false]
  · simp only [GameMap.is_wall, hb, if_false]
  · simp only [GameMap.is_walkable, GameMap.is_wall, hb, if_false,
      Bool.not_true]
  · intro h10 hx
    have : gy = 10 ∧ (gx < 0 ∨ gx ≥ (m.width : ℤ)) := ⟨h10, by omega⟩
    simp only [GameMap.is_visual_wall, this, and_self, if_true]

/-- Witness for C7 (amended) at a concrete input: the out-of-bounds
tunnel-row cell (-1, 10) of the standard maze. -/
theorem C7_out_of_bounds_is_wall_witness :
    standardMap.get_cell (-1) 10 = 1 ∧
      standardMap.is_wall (-1) 10 = true ∧
      standardMap.is_walkable (-1) 10 = false ∧
      ((10 : ℤ) = 10 → (-1 : ℤ) < 0 ∨ (standardMap.width : ℤ) ≤ -1 →
        standardMap.is_visual_wall (-1) 10 = false) :=
  C7_out_of_bounds_is_wall standardMap (-1) 10 (Or.inl (by decide))

/-! ## Claim C3 -/

/-- C3 fails as stated: `PacMan._check_ghost_collisions`
(`src/pacman.py` 213-226) restricts the InHouse exemption to the
life-loss branch only — a Frightened ghost inside the house (all ghosts
are frightened by a power pellet, house state included) within the
hitbox radius is eaten and scores the bonus.  Here frightened Blinky,
still InHouse at (285, 255), meets the player at (285, 250). -/
theorem C3_counterexample :
    (Ghost.start_frightened (mkGhost ⟨⟨285, 255⟩, true⟩)).house_state =
        GhostHouseState.IN_HOUSE ∧
      (PacMan.check_ghost_collisions ⟨⟨285, 250⟩, .NONE, 2, 1, 0, 3⟩
          [Ghost.start_frightened (mkGhost ⟨⟨285, 255⟩, true⟩)]).1.score =
        0 + 200 ∧
      (PacMan.check_ghost_collisions ⟨⟨285, 250⟩, .NONE, 2, 1, 0, 3⟩
          [Ghost.start_frightened (mkGhost ⟨⟨285, 255⟩, true⟩)]).2 =
        [(Ghost.start_frightened (mkGhost ⟨⟨285, 255⟩, true⟩)).get_eaten] := by
  have hsf : Ghost.start_frightened (mkGhost ⟨⟨285, 255⟩, true⟩) =
      Ghost.mk ⟨285, 255⟩ ⟨285, 255⟩ .LEFT 1 none .FRIGHTENED .IN_HOUSE 600 0 := by
    decide
  refine ⟨by decide, ?_, ?_⟩ <;>
    rw [hsf] <;>
    norm_num [PacMan.check_ghost_collisions, PacMan.ghostCollisionStep,
      PacMan.ghostDist2, Ghost.is_frightened, Ghost.get_eaten, TILE_SIZE]

/-- C3 (amended): in the per-tick collision evaluation, a ghost within
the fixed hitbox radius (24 px, squared 576) that is Frightened becomes
Eaten and the score increases by the fixed bonus 200 with lives
unchanged, regardless of its house state; the InHouse (and Eaten)
exemption applies only to the life-loss branch: a non-Frightened ghost
within the radius costs one life exactly when it is neither Eaten nor
InHouse. -/
theorem C3_collision_cases (p : PacMan) (g : Ghost) :
    (p.ghostDist2 g < 576 → g.state = GhostState.FRIGHTENED →
        p.check_ghost_collisions [g] =
          ({ p with score := p.score + 200 }, [g.get_eaten])) ∧
      (p.ghostDist2 g < 576 → g.state ≠ GhostState.FRIGHTENED →
        g.state ≠ GhostState.EATEN → g.house_state ≠ GhostHouseState.IN_HOUSE →
        p.check_ghost_collisions [g] = ({ p with lives := p.lives - 1 }, [g])) ∧
      (p.ghostDist2 g < 576 → g.state ≠ GhostState.FRIGHTENED →
        (g.state = GhostState.EATEN ∨ g.house_state = GhostHouseState.IN_HOUSE) →
        p.check_ghost_collisions [g] = (p, [g])) ∧
      (¬ p.ghostDist2 g < 576 → p.check_ghost_collisions [g] = (p, [g])) := by
  have h24 : ((TILE_SIZE / 2 * (4/5) * 2 : ℚ)) ^ 2 = 576 := by
    norm_num [TILE_SIZE]
  refine ⟨?_, ?_, ?_, ?_⟩
  · intro hd hf
    simp [PacMan.check_ghost_collisions, PacMan.ghostCollisionStep, h24, hd,
      Ghost.is_frightened, hf]
  · intro hd hf he hh
    simp [PacMan.check_ghost_collisions, PacMan.ghostCollisionStep, h24, hd,
      Ghost.is_frightened, Ghost.is_eaten, Ghost.in_ghost_house, hf, he, hh]
  · intro hd hf hor
    rcases hor with he | hh
    · simp [PacMan.check_ghost_collisions, PacMan.ghostCollisionStep, h24, hd,
        Ghost.is_frightened, Ghost.is_eaten, hf, he]
    · simp [PacMan.check_ghost_collisions, PacMan.ghostCollisionStep, h24, hd,
        Ghost.is_frightened, Ghost.in_ghost_house, hf, hh]
  · intro hd
    simp [PacMan.check_ghost_collisions, PacMan.ghostCollisionStep, h24, hd]

/-- Witness for C3 (amended) at a concrete input: a Chase-mode active
ghost at (285, 255) meets the player at (285, 250) and costs one
life. -/
theorem C3_collision_cases_witness :
    PacMan.check_ghost_collisions ⟨⟨285, 250⟩, .NONE, 2, 1, 0, 3⟩
        [Ghost.mk ⟨285, 255⟩ ⟨285, 255⟩ .LEFT 2 none .CHASE .ACTIVE 0 0] =
      ({ PacMan.mk ⟨285, 250⟩ .NONE 2 1 0 3 with lives := 3 - 1 },
        [Ghost.mk ⟨285, 255⟩ ⟨285, 255⟩ .LEFT 2 none .CHASE .ACTIVE 0 0]) :=
  (C3_collision_cases ⟨⟨285, 250⟩, .NONE, 2, 1, 0, 3⟩
      (Ghost.mk ⟨285, 255⟩ ⟨285, 255⟩ .LEFT 2 none .CHASE .ACTIVE 0 0)).2.1
    (by norm_num [PacMan.ghostDist2]) (by decide) (by decide) (by decide)

/-! ## Claim C6 -/

/-- C6: on a broadcast mode transition (new mode differs from the
previous one, and is one of the two Scatter/Chase modes), every ghost
that is not Frightened, not Eaten and not InHouse is switched to the new
mode with its direction reversed exactly once, and every Frightened,
Eaten or InHouse ghost is left unchanged (`set_ghost_modes`,
`src/ghost_init.py` 44-62 = `src/main.py` 57-75, with the spec-modelled
`Ghost.set_state`). -/
theorem C6_mode_broadcast (ghosts : List Ghost) (mode previous_mode : String)
    (hchange : mode ≠ previous_mode)
    (hmode : mode = "SCATTER" ∨ mode = "CHASE") :
    setGhostModes ghosts mode previous_mode =
      ghosts.map fun g =>
        if g.state = GhostState.FRIGHTENED ∨ g.state = GhostState.EATEN ∨
            g.house_state = GhostHouseState.IN_HOUSE then g
        else
          { g with
            state := if mode = "SCATTER" then .SCATTER else .CHASE
            direction := reverseDirection g.direction } := by
  simp only [setGhostModes]
  congr 1
  funext g
  by_cases hskip : g.state = GhostState.FRIGHTENED ∨ g.state = GhostState.EATEN ∨
      g.house_state = GhostHouseState.IN_HOUSE
  · have hb : (g.is_frightened || g.is_eaten || g.in_ghost_house) = true := by
      simp only [Ghost.is_frightened, Ghost.is_eaten, Ghost.in_ghost_house]
      rcases hskip with h | h | h <;> simp [h]
    simp [hb, hskip]
  · have hb : (g.is_frightened || g.is_eaten || g.in_ghost_house) = false := by
      push_neg at hskip
      simp only [Ghost.is_frightened, Ghost.is_eaten, Ghost.in_ghost_house]
      simp [hskip.1, hskip.2.1, hskip.2.2]
    rcases hmode with h | h <;>
      simp [hb, hskip, h, Ghost.set_state, hchange] <;>
      exact fun h2 => absurd (h.trans h2) hchange

/-- Witness for C6 at a concrete input: one active Scatter ghost,
broadcast switching from "SCATTER" to "CHASE". -/
theorem C6_mode_broadcast_witness :
    setGhostModes [mkGhost ⟨⟨285, 255⟩, false⟩] "CHASE" "SCATTER" =
      [mkGhost ⟨⟨285, 255⟩, false⟩].map fun g =>
        if g.state = GhostState.FRIGHTENED ∨ g.state = GhostState.EATEN ∨
            g.house_state = GhostHouseState.IN_HOUSE then g
        else
          { g with
            state := if "CHASE" = "SCATTER" then .SCATTER else .CHASE
            direction := reverseDirection g.direction } :=
  C6_mode_broadcast [mkGhost ⟨⟨285, 255⟩, false⟩] "CHASE" "SCATTER"
    (by decide) (Or.inr rfl)

/-! ## Further definitions used by the claims -/

/-- `Blinky.calculate_target` (`src/ghost.py` 453-457): the direct
chaser targets the player's exact position. -/
def blinkyCalculateTarget : Ghost → ℚ → ℚ → ℤ × ℤ → ℚ × ℚ :=
  fun _ pacman_x pacman_y _ => (pacman_x, pacman_y)

/-- The candidate directions of spec §4.4, as the spec words them: the
four cardinal directions in the fixed check order, excluding the exact
reverse of the current direction and directions whose neighboring tile
is not walkable. -/
def specCandidateDirections (m : GameMap) (g : Ghost) : List Direction :=
  directionOrder.filter fun d =>
    (d != reverseDirection g.direction) &&
      m.is_walkable ((g.position.to_grid).1 + d.value.1)
        ((g.position.to_grid).2 + d.value.2)

/-- The squared Euclidean distance from the center of the neighboring
tile in direction `d` to the target. -/
def specNeighborDist2 (m : GameMap) (g : Ghost) (t : Position)
    (d : Direction) : ℚ :=
  Position.dist2
    ⟨(m.grid_to_pixel ((g.position.to_grid).1 + d.value.1)
        ((g.position.to_grid).2 + d.value.2)).1,
      (m.grid_to_pixel ((g.position.to_grid).1 + d.value.1)
        ((g.position.to_grid).2 + d.value.2)).2⟩ t

/-- Spec §4.4's direction rule, stated as written: among the candidate
directions, the one whose neighbor-tile center is closest (Euclidean,
compared by squares) to the target, ties resolved in favor of the first
in the check order (`List.argmin` keeps the earliest minimizer); the
current direction if no candidate remains. -/
def specChooseDirection (m : GameMap) (g : Ghost) (t : Position) :
    Direction :=
  ((specCandidateDirections m g).argmin (specNeighborDist2 m g t)).getD
    g.direction

/-- Proof-side form of the selection loop, with the skip test `p` and
the (always finite) distance `v` split out; `⊤` is `float("inf")`. -/
def selectLoop (p : Direction → Bool) (v : Direction → ℚ) :
    List Direction → Direction × WithTop ℚ → Direction × WithTop ℚ
  | [], acc => acc
  | d :: ds, (bd, bv) =>
    selectLoop p v ds
      (if p d then
        if (v d : WithTop ℚ) < bv then (d, (v d : WithTop ℚ)) else (bd, bv)
      else (bd, bv))

/-- The horizontal pixel wrap shared by both movement steps
(`src/pacman.py` 124-129, `src/ghost.py` 306-311). -/
def wrapX (m : GameMap) (x : ℚ) : ℚ :=
  if x < 0 then x + (m.width : ℚ) * TILE_SIZE
  else if x ≥ (m.width : ℚ) * TILE_SIZE then x - (m.width : ℚ) * TILE_SIZE
  else x

/-- Spec §4.2's motion-resolver policy as the spec words it: advance
`speed` units along the direction, wrap horizontally, and clamp the
agent exactly to the current tile's center when the candidate would
cross the tile's center boundary into a non-walkable next tile
(horizontally wrapped); otherwise take the candidate.  The current tile
is read off with the player's pixel-to-grid conversion (truncation). -/
def specClampPolicy (m : GameMap) (pos : Position) (d : Direction)
    (speed : ℚ) : Position :=
  let cand : Position :=
    ⟨wrapX m (pos.x + d.value.1 * speed), pos.y + d.value.2 * speed⟩
  let gr := m.pixel_to_grid pos.x pos.y
  let c := m.grid_to_pixel gr.1 gr.2
  let nx := gr.1 + d.value.1
  let nx := if nx < 0 then (m.width : ℤ) - 1
    else if nx ≥ (m.width : ℤ) then 0 else nx
  let crosses :=
    (cand.x - c.1) * d.value.1 > 0 ∨ (cand.y - c.2) * d.value.2 > 0
  if ¬ m.is_walkable nx (gr.2 + d.value.2) ∧ crosses then ⟨c.1, c.2⟩
  else cand

/-- The wall policy the ghost step actually implements: take the
wrapped candidate whenever the candidate's own tile (floor conversion)
is walkable, and clamp to the current tile's center only otherwise. -/
def specTileWalkPolicy (m : GameMap) (pos : Position) (d : Direction)
    (speed : ℚ) : Position :=
  let cand : Position :=
    ⟨wrapX m (pos.x + d.value.1 * speed), pos.y + d.value.2 * speed⟩
  if m.is_walkable (cand.to_grid).1 (cand.to_grid).2 then cand
  else
    let gr := pos.to_grid
    ⟨(m.grid_to_pixel gr.1 gr.2).1, (m.grid_to_pixel gr.1 gr.2).2⟩

/-- The ghost states produced by the program: the constructor
(`Ghost.__init__`) and its public mutators, with arbitrary call
parameters (the spec-modelled `set_state` included). -/
inductive Reachable : Ghost → Prop where
  | init (config : GhostConfig) : Reachable (mkGhost config)
  | frightened {g : Ghost} : Reachable g → Reachable g.start_frightened
  | eaten {g : Ghost} : Reachable g → Reachable g.get_eaten
  | release {g : Ghost} : Reachable g → Reachable g.release_from_house
  | sendHome {g : Ghost} : Reachable g → Reachable g.return_to_house
  | broadcast {g : Ghost} (s : GhostState) (reverse : Bool) :
      Reachable g → Reachable (g.set_state s reverse)
  | tick {g : Ghost} (m : GameMap) (ct : Ghost → ℚ → ℚ → ℤ × ℤ → ℚ × ℚ)
      (rng : ℕ) (px py : ℚ) (pd : ℤ × ℤ) :
      Reachable g → Reachable (Ghost.update m ct rng g px py pd)

/-! ## Field-preservation lemmas for the ghost step functions -/

/-- The `get_center` offsets of `distance_to` cancel: the (squared)
distance is the plain squared Euclidean distance of the two points. -/
theorem Position.dist2_eq (p q : Position) :
    Position.dist2 p q = (p.x - q.x) ^ 2 + (p.y - q.y) ^ 2 := by
  simp only [Position.dist2, Position.get_center]
  ring


/-- `_exit_house` only moves the ghost and flips house state /
direction; mode, speed, timers, spawn and target are untouched. -/
theorem exit_house_fields (g : Ghost) :
    (g.exit_house).state = g.state ∧ (g.exit_house).speed = g.speed ∧
      (g.exit_house).frightened_timer = g.frightened_timer ∧
      (g.exit_house).spawn_position = g.spawn_position := by
  simp only [Ghost.exit_house]
  split_ifs <;> exact ⟨rfl, rfl, rfl, rfl⟩

/-- `_exit_house` never sends a ghost back into the house. -/
theorem exit_house_house_state (g : Ghost) :
    (g.exit_house).house_state = g.house_state ∨
      (g.exit_house).house_state = GhostHouseState.ACTIVE := by
  simp only [Ghost.exit_house]
  split_ifs <;> simp

/-- `_choose_random_direction` only changes the direction. -/
theorem choose_random_direction_fields (m : GameMap) (rng : ℕ) (g : Ghost) :
    (g.choose_random_direction m rng).state = g.state ∧
      (g.choose_random_direction m rng).speed = g.speed ∧
      (g.choose_random_direction m rng).frightened_timer = g.frightened_timer ∧
      (g.choose_random_direction m rng).house_state = g.house_state ∧
      (g.choose_random_direction m rng).position = g.position ∧
      (g.choose_random_direction m rng).spawn_position = g.spawn_position := by
  simp only [Ghost.choose_random_direction]
  split_ifs <;> exact ⟨rfl, rfl, rfl, rfl, rfl, rfl⟩

/-- `_choose_direction` only changes the direction. -/
theorem choose_direction_fields (m : GameMap) (rng : ℕ) (g : Ghost) :
    (g.choose_direction m rng).state = g.state ∧
      (g.choose_direction m rng).speed = g.speed ∧
      (g.choose_direction m rng).frightened_timer = g.frightened_timer ∧
      (g.choose_direction m rng).house_state = g.house_state ∧
      (g.choose_direction m rng).position = g.position ∧
      (g.choose_direction m rng).spawn_position = g.spawn_position := by
  simp only [Ghost.choose_direction]
  split_ifs <;>
    first
      | exact ⟨rfl, rfl, rfl, rfl, rfl, rfl⟩
      | exact choose_random_direction_fields m rng g

/-- `_move` only changes the position. -/
theorem move_fields (m : GameMap) (g : Ghost) :
    (g.move m).state = g.state ∧ (g.move m).speed = g.speed ∧
      (g.move m).frightened_timer = g.frightened_timer ∧
      (g.move m).house_state = g.house_state ∧
      (g.move m).spawn_position = g.spawn_position := by
  simp only [Ghost.move]
  split_ifs <;> exact ⟨rfl, rfl, rfl, rfl, rfl⟩

/-- Steps 1-2 of `update` never touch position, house state, spawn,
direction or target. -/
theorem update_timers_fields (g : Ghost) :
    (g.update_timers).position = g.position ∧
      (g.update_timers).house_state = g.house_state ∧
      (g.update_timers).spawn_position = g.spawn_position ∧
      (g.update_timers).direction = g.direction ∧
      (g.update_timers).target = g.target := by
  simp only [Ghost.update_timers]
  split_ifs <;> exact ⟨rfl, rfl, rfl, rfl, rfl⟩

/-- The state/speed/countdown effect of steps 1-2 of `update` on a
Frightened ghost: the countdown drops by one; at `≤ 0` the mode becomes
Scatter and the speed the base `GHOST_SPEED`, else the ghost stays
Frightened at unchanged speed. -/
theorem update_timers_frightened (g : Ghost)
    (hf : g.state = GhostState.FRIGHTENED) :
    (g.update_timers).frightened_timer = g.frightened_timer - 1 ∧
      (g.frightened_timer - 1 ≤ 0 →
        (g.update_timers).state = GhostState.SCATTER ∧
          (g.update_timers).speed = GHOST_SPEED) ∧
      (0 < g.frightened_timer - 1 →
        (g.update_timers).state = GhostState.FRIGHTENED ∧
          (g.update_timers).speed = g.speed) := by
  simp only [Ghost.update_timers, hf, if_true]
  by_cases ht : g.frightened_timer - 1 ≤ 0 <;>
    simp [ht] <;> omega

/-- Steps 1-2 of `update` leave a non-Frightened ghost's state, speed
and countdown alone. -/
theorem update_timers_not_frightened (g : Ghost)
    (hf : g.state ≠ GhostState.FRIGHTENED) :
    (g.update_timers).state = g.state ∧ (g.update_timers).speed = g.speed ∧
      (g.update_timers).frightened_timer = g.frightened_timer := by
  simp only [Ghost.update_timers, hf, if_false]
  refine ⟨by trivial, by trivial, by trivial⟩

/-- The four shapes a tick can take after the timer step: eaten-return
respawn, waiting in house, exiting, or the active
target/choose/move path. -/
theorem update_cases (m : GameMap) (ct : Ghost → ℚ → ℚ → ℤ × ℤ → ℚ × ℚ)
    (rng : ℕ) (g : Ghost) (px py : ℚ) (pd : ℤ × ℤ) :
    (Ghost.update m ct rng g px py pd = (g.update_timers).respawn_in_house ∧
        (g.update_timers).state = GhostState.EATEN) ∨
      (Ghost.update m ct rng g px py pd = g.update_timers ∧
        (g.update_timers).house_state = GhostHouseState.IN_HOUSE) ∨
      (Ghost.update m ct rng g px py pd = (g.update_timers).exit_house ∧
        (g.update_timers).house_state = GhostHouseState.EXITING) ∨
      (∃ X : Position,
        Ghost.update m ct rng g px py pd =
          (({ g.update_timers with target := some X }).choose_direction m
            rng).move m ∧
        (g.update_timers).house_state ≠ GhostHouseState.IN_HOUSE) := by
  by_cases h1 : (g.update_timers).state = GhostState.EATEN ∧
      Position.dist2 (g.update_timers).position houseExit < TILE_SIZE ^ 2
  · refine Or.inl ⟨?_, h1.1⟩
    simp only [Ghost.update]
    rw [if_pos h1]
  · by_cases h2 : (g.update_timers).house_state = GhostHouseState.IN_HOUSE
    · refine Or.inr (Or.inl ⟨?_, h2⟩)
      simp only [Ghost.update]
      rw [if_neg h1, if_pos h2]
    · by_cases h3 : (g.update_timers).house_state = GhostHouseState.EXITING
      · refine Or.inr (Or.inr (Or.inl ⟨?_, h3⟩))
        simp only [Ghost.update]
        rw [if_neg h1, if_neg h2, if_pos h3]
      · refine Or.inr (Or.inr (Or.inr
          ⟨⟨(if (g.update_timers).state = GhostState.EATEN then
                (houseExit.x, houseExit.y)
              else if (g.update_timers).state = GhostState.FRIGHTENED then
                ((0 : ℚ), (0 : ℚ))
              else ct g.update_timers px py pd).1,
            (if (g.update_timers).state = GhostState.EATEN then
                (houseExit.x, houseExit.y)
              else if (g.update_timers).state = GhostState.FRIGHTENED then
                ((0 : ℚ), (0 : ℚ))
              else ct g.update_timers px py pd).2⟩, ?_, h2⟩))
        simp only [Ghost.update]
        rw [if_neg h1, if_neg h2, if_neg h3]

/-- Fields preserved along the active path (set target, choose a
direction, move). -/
theorem move_choose_fields (m : GameMap) (rng : ℕ) (g : Ghost)
    (X : Option Position) :
    ((({ g with target := X }).choose_direction m rng).move m).state = g.state ∧
      ((({ g with target := X }).choose_direction m rng).move m).speed =
        g.speed ∧
      ((({ g with target := X }).choose_direction m rng).move
          m).frightened_timer = g.frightened_timer ∧
      ((({ g with target := X }).choose_direction m rng).move m).house_state =
        g.house_state ∧
      ((({ g with target := X }).choose_direction m rng).move
          m).spawn_position = g.spawn_position := by
  obtain ⟨c1, c2, c3, c4, _, c6⟩ :=
    choose_direction_fields m rng { g with target := X }
  obtain ⟨m1, m2, m3, m4, m5⟩ :=
    move_fields m (({ g with target := X }).choose_direction m rng)
  exact ⟨m1.trans c1, m2.trans c2, m3.trans c3, m4.trans c4, m5.trans c6⟩

/-- The state/speed/countdown effect of one full `update` tick on a
Frightened ghost. -/
theorem update_frightened_step (m : GameMap)
    (ct : Ghost → ℚ → ℚ → ℤ × ℤ → ℚ × ℚ) (rng : ℕ) (g : Ghost) (px py : ℚ)
    (pd : ℤ × ℤ) (hf : g.state = GhostState.FRIGHTENED) :
    (Ghost.update m ct rng g px py pd).frightened_timer =
        g.frightened_timer - 1 ∧
      (g.frightened_timer - 1 ≤ 0 →
        (Ghost.update m ct rng g px py pd).state = GhostState.SCATTER ∧
          (Ghost.update m ct rng g px py pd).speed = GHOST_SPEED) ∧
      (0 < g.frightened_timer - 1 →
        (Ghost.update m ct rng g px py pd).state = GhostState.FRIGHTENED ∧
          (Ghost.update m ct rng g px py pd).speed = g.speed) := by
  obtain ⟨h1, h2, h3⟩ := update_timers_frightened g hf
  have hne : (g.update_timers).state ≠ GhostState.EATEN := by
    by_cases ht : g.frightened_timer - 1 ≤ 0
    · rw [(h2 ht).1]; simp
    · rw [(h3 (by omega)).1]; simp
  rcases update_cases m ct rng g px py pd with
    ⟨_, hs⟩ | ⟨hu, _⟩ | ⟨hu, _⟩ | ⟨X, hu, _⟩
  · exact absurd hs hne
  · rw [hu]
    exact ⟨h1, h2, h3⟩
  · rw [hu]
    obtain ⟨e1, e2, e3, _⟩ := exit_house_fields g.update_timers
    rw [e1, e2, e3]
    exact ⟨h1, h2, h3⟩
  · rw [hu]
    obtain ⟨f1, f2, f3, _, _⟩ := move_choose_fields m rng g.update_timers
      (some X)
    rw [f1, f2, f3]
    exact ⟨h1, h2, h3⟩

/-- Iterating the tick on a Frightened ghost with `k + 1` ticks left on
the countdown ends in Scatter after exactly `k + 1` ticks. -/
theorem frightened_expires (m : GameMap)
    (ct : Ghost → ℚ → ℚ → ℤ × ℤ → ℚ × ℚ) (rng : ℕ) (px py : ℚ)
    (pd : ℤ × ℤ) :
    ∀ (k : ℕ) (g : Ghost), g.state = GhostState.FRIGHTENED →
      g.frightened_timer = (k : ℤ) + 1 →
      ((fun h => Ghost.update m ct rng h px py pd)^[k + 1] g).state =
        GhostState.SCATTER := by
  intro k
  induction k with
  | zero =>
    intro g hf ht
    simp only [zero_add, Function.iterate_one]
    exact ((update_frightened_step m ct rng g px py pd hf).2.1
      (by omega)).1
  | succ n ih =>
    intro g hf ht
    rw [Function.iterate_succ_apply]
    have hstep := update_frightened_step m ct rng g px py pd hf
    apply ih
    · exact (hstep.2.2 (by push_cast at ht ⊢; omega)).1
    · have h1 := hstep.1
      push_cast at ht ⊢
      omega

/-! ## Claim C5 -/

/-- C5 fails as stated: on expiry the mode always reverts to Scatter
(`src/ghost.py` 160), not to the last externally-broadcast mode.  Here
the broadcast switches a fresh active ghost to Chase, the ghost is
frightened (countdown 600), and 600 ticks later it sits in Scatter,
not in the pre-Frightened broadcast mode Chase. -/
theorem C5_counterexample :
    ((setGhostModes [mkGhost ⟨⟨45, 45⟩, false⟩] "CHASE" "SCATTER").headD
        (mkGhost ⟨⟨45, 45⟩, false⟩)).state = GhostState.CHASE ∧
      ((fun h =>
          Ghost.update standardMap blinkyCalculateTarget 0 h 45 45
            (1, 0))^[600]
        (((setGhostModes [mkGhost ⟨⟨45, 45⟩, false⟩] "CHASE"
            "SCATTER").headD (mkGhost ⟨⟨45, 45⟩, false⟩)).start_frightened)).state
        = GhostState.SCATTER ∧
      GhostState.SCATTER ≠ GhostState.CHASE := by
  refine ⟨rfl, ?_, by decide⟩
  exact frightened_expires standardMap blinkyCalculateTarget 0 45 45 (1, 0)
    599 _ rfl (by decide)

/-- C5 (amended): every tick decrements a Frightened ghost's countdown
by one; on the tick where the countdown reaches zero (or below) the
mode reverts to Scatter — always Scatter, regardless of which
Scatter/Chase mode was last broadcast — and the speed reverts to the
base `GHOST_SPEED`; before that the ghost stays Frightened at
unchanged speed. -/
theorem C5_frightened_countdown (m : GameMap)
    (ct : Ghost → ℚ → ℚ → ℤ × ℤ → ℚ × ℚ) (rng : ℕ) (g : Ghost)
    (px py : ℚ) (pd : ℤ × ℤ) (hf : g.state = GhostState.FRIGHTENED) :
    (Ghost.update m ct rng g px py pd).frightened_timer =
        g.frightened_timer - 1 ∧
      (g.frightened_timer - 1 ≤ 0 →
        (Ghost.update m ct rng g px py pd).state = GhostState.SCATTER ∧
          (Ghost.update m ct rng g px py pd).speed = GHOST_SPEED) ∧
      (0 < g.frightened_timer - 1 →
        (Ghost.update m ct rng g px py pd).state = GhostState.FRIGHTENED ∧
          (Ghost.update m ct rng g px py pd).speed = g.speed) :=
  update_frightened_step m ct rng g px py pd hf

/-- Witness for C5 (amended) at a concrete input: a frightened in-house
ghost with a full countdown. -/
theorem C5_frightened_countdown_witness :
    (Ghost.update standardMap blinkyCalculateTarget 0
          (Ghost.mk ⟨45, 45⟩ ⟨45, 45⟩ .LEFT 1 none .FRIGHTENED .IN_HOUSE 600 0)
          45 45 (1, 0)).frightened_timer = 600 - 1 ∧
      ((600 : ℤ) - 1 ≤ 0 →
        (Ghost.update standardMap blinkyCalculateTarget 0
            (Ghost.mk ⟨45, 45⟩ ⟨45, 45⟩ .LEFT 1 none .FRIGHTENED .IN_HOUSE 600
              0) 45 45 (1, 0)).state = GhostState.SCATTER ∧
          (Ghost.update standardMap blinkyCalculateTarget 0
            (Ghost.mk ⟨45, 45⟩ ⟨45, 45⟩ .LEFT 1 none .FRIGHTENED .IN_HOUSE 600
              0) 45 45 (1, 0)).speed = GHOST_SPEED) ∧
      (0 < (600 : ℤ) - 1 →
        (Ghost.update standardMap blinkyCalculateTarget 0
            (Ghost.mk ⟨45, 45⟩ ⟨45, 45⟩ .LEFT 1 none .FRIGHTENED .IN_HOUSE 600
              0) 45 45 (1, 0)).state = GhostState.FRIGHTENED ∧
          (Ghost.update standardMap blinkyCalculateTarget 0
            (Ghost.mk ⟨45, 45⟩ ⟨45, 45⟩ .LEFT 1 none .FRIGHTENED .IN_HOUSE 600
              0) 45 45 (1, 0)).speed = 1) :=
  C5_frightened_countdown standardMap blinkyCalculateTarget 0
    (Ghost.mk ⟨45, 45⟩ ⟨45, 45⟩ .LEFT 1 none .FRIGHTENED .IN_HOUSE 600 0)
    45 45 (1, 0) rfl

/-- Program invariant: a ghost that is waiting in the house sits at its
spawn position.  Every operation of the program preserves this: ghosts
are created at spawn, `return_to_house` teleports to spawn, the tick
never re-enters the house, and nothing moves an in-house ghost. -/
theorem reachable_in_house_at_spawn {g : Ghost} (h : Reachable g) :
    g.house_state = GhostHouseState.IN_HOUSE →
      g.position = g.spawn_position := by
  induction h with
  | init config => intro _; rfl
  | frightened _ ih =>
    simp only [Ghost.start_frightened]
    split_ifs <;> exact ih
  | eaten _ ih => exact ih
  | release _ ih =>
    simp only [Ghost.release_from_house]
    split_ifs with hr
    · intro hh
      exact absurd hh (by decide)
    · exact ih
  | sendHome _ ih => intro _; rfl
  | broadcast s reverse _ ih => exact ih
  | tick m ct rng px py pd _ ih =>
    rename_i g0 _
    obtain ⟨t1, t2, t3, _, _⟩ := update_timers_fields g0
    rcases update_cases m ct rng g0 px py pd with
      ⟨hu, _⟩ | ⟨hu, _⟩ | ⟨hu, hex⟩ | ⟨X, hu, hnh⟩
    · intro hh
      rw [hu] at hh
      exact absurd hh (by simp [Ghost.respawn_in_house])
    · intro hh
      rw [hu] at hh ⊢
      rw [t1, t2, t3] at *
      exact ih hh
    · intro hh
      rw [hu] at hh
      rcases exit_house_house_state g0.update_timers with he | he <;>
        rw [he] at hh
      · rw [hex] at hh
        exact absurd hh (by decide)
      · exact absurd hh (by decide)
    · intro hh
      rw [hu] at hh
      obtain ⟨_, _, _, f4, _⟩ := move_choose_fields m rng g0.update_timers
        (some X)
      rw [f4] at hh
      exact absurd hh hnh

/-! ## Claim C9 -/

/-- C9: a ghost of the program whose house state is InHouse does not
move during a tick: whatever its behavioral mode (Frightened and Eaten
included) and whatever the player's position and direction, its x and y
coordinates after `update` equal those before.  (An Eaten in-house
ghost close to the house exit is respawned — but respawning teleports
to the spawn position, where an in-house ghost already sits by the
`reachable_in_house_at_spawn` invariant.) -/
theorem C9_in_house_position_fixed (m : GameMap)
    (ct : Ghost → ℚ → ℚ → ℤ × ℤ → ℚ × ℚ) (rng : ℕ) (g : Ghost)
    (px py : ℚ) (pd : ℤ × ℤ) (hr : Reachable g)
    (hh : g.house_state = GhostHouseState.IN_HOUSE) :
    (Ghost.update m ct rng g px py pd).position = g.position := by
  have hsp := reachable_in_house_at_spawn hr hh
  obtain ⟨t1, t2, t3, _, _⟩ := update_timers_fields g
  rcases update_cases m ct rng g px py pd with
    ⟨hu, _⟩ | ⟨hu, _⟩ | ⟨hu, hex⟩ | ⟨X, hu, hnh⟩
  · rw [hu]
    have hrp : ((g.update_timers).respawn_in_house).position =
        (g.update_timers).spawn_position := rfl
    rw [hrp, t3, hsp]
  · rw [hu, t1]
  · rw [t2, hh] at hex
    exact absurd hex (by decide)
  · rw [t2, hh] at hnh
    exact absurd rfl hnh

/-- Witness for C9 at a concrete input: freshly created in-house Blinky
under one tick. -/
theorem C9_in_house_position_fixed_witness :
    (Ghost.update standardMap blinkyCalculateTarget 0
        (mkGhost ⟨⟨285, 255⟩, true⟩) 45 45 (1, 0)).position =
      (mkGhost ⟨⟨285, 255⟩, true⟩).position :=
  C9_in_house_position_fixed standardMap blinkyCalculateTarget 0
    (mkGhost ⟨⟨285, 255⟩, true⟩) 45 45 (1, 0)
    (Reachable.init ⟨⟨285, 255⟩, true⟩) rfl

/-! ## The direction-selection loop versus the spec's argmin -/

/-- The loop's reverse test agrees with "is the exact reverse of the
current direction": direction vectors are injective and negation swaps
the pairwise opposites. -/
theorem is_opposite_direction_eq (g : Ghost) (d : Direction) :
    g.is_opposite_direction d = (d == reverseDirection g.direction) := by
  rcases g with ⟨_, _, dir, _, _, _, _, _, _⟩
  cases dir <;> cases d <;> rfl

/-- With a target present, the source's selection loop is the
proof-side `selectLoop` with the skip test and distance split out. -/
theorem choose_loop_eq_selectLoop (m : GameMap) (g : Ghost) (t : Position)
    (ht : g.target = some t) :
    ∀ (l : List Direction) (acc : Direction × WithTop ℚ),
      Ghost.choose_direction_loop m g l acc =
        selectLoop
          (fun d => !g.is_opposite_direction d &&
            m.is_walkable ((g.position.to_grid).1 + d.value.1)
              ((g.position.to_grid).2 + d.value.2))
          (specNeighborDist2 m g t) l acc := by
  intro l
  induction l with
  | nil => intro _; rfl
  | cons d ds ih =>
    intro acc
    obtain ⟨bd, bv⟩ := acc
    have hstep :
        (if g.is_opposite_direction d then (bd, bv)
         else
           match g.get_distance_for_direction m d with
           | none => (bd, bv)
           | some v => if v < bv then (d, v) else (bd, bv)) =
          (if (!g.is_opposite_direction d &&
              m.is_walkable ((g.position.to_grid).1 + d.value.1)
                ((g.position.to_grid).2 + d.value.2)) then
            if ((specNeighborDist2 m g t d : ℚ) : WithTop ℚ) < bv then
              (d, ((specNeighborDist2 m g t d : ℚ) : WithTop ℚ))
            else (bd, bv)
          else (bd, bv)) := by
      by_cases hopp : g.is_opposite_direction d <;>
        by_cases hwalk : m.is_walkable ((g.position.to_grid).1 + d.value.1)
          ((g.position.to_grid).2 + d.value.2) <;>
        simp [Ghost.get_distance_for_direction, ht, hopp, hwalk,
          specNeighborDist2]
    simp only [Ghost.choose_direction_loop, selectLoop]
    rw [hstep]
    exact ih _

/-- The fold of the selection loop computes the earliest minimizer of
`v` among the `p`-kept elements (Mathlib's `List.argmin`), threaded
through the running best pair. -/
theorem selectLoop_argmin (p : Direction → Bool) (v : Direction → ℚ) :
    ∀ (l : List Direction) (bd : Direction) (bv : WithTop ℚ),
      selectLoop p v l (bd, bv) =
        (match (l.filter p).argmin v with
         | none => (bd, bv)
         | some c =>
           if ((v c : ℚ) : WithTop ℚ) < bv then (c, ((v c : ℚ) : WithTop ℚ))
           else (bd, bv)) := by
  intro l
  induction l with
  | nil => intro _ _; rfl
  | cons d ds ih =>
    intro bd bv
    simp only [selectLoop, List.filter_cons]
    by_cases hp : p d
    · simp only [hp, if_true]
      rw [List.argmin_cons]
      rcases hA : (ds.filter p).argmin v with _ | c
      · by_cases hvb : ((v d : ℚ) : WithTop ℚ) < bv
        · rw [if_pos hvb, ih d ((v d : ℚ) : WithTop ℚ), hA]
          simp [hvb]
        · rw [if_neg hvb, ih bd bv, hA]
          simp [hvb]
      · by_cases hvb : ((v d : ℚ) : WithTop ℚ) < bv
        · rw [if_pos hvb, ih d ((v d : ℚ) : WithTop ℚ), hA]
          by_cases hcd : v c < v d
          · have h1 : ((v c : ℚ) : WithTop ℚ) < ((v d : ℚ) : WithTop ℚ) := by
              exact_mod_cast hcd
            have h2 : ((v c : ℚ) : WithTop ℚ) < bv := lt_trans h1 hvb
            simp [hcd, h1, h2]
          · have h1 : ¬ ((v c : ℚ) : WithTop ℚ) < ((v d : ℚ) : WithTop ℚ) := by
              exact_mod_cast hcd
            simp [hcd, h1, hvb]
        · rw [if_neg hvb, ih bd bv, hA]
          by_cases hcd : v c < v d
          · simp [hcd]
          · have hdc : v d ≤ v c := le_of_not_lt hcd
            have h1 : ¬ ((v c : ℚ) : WithTop ℚ) < bv := by
              intro hlt
              apply hvb
              have hle : ((v d : ℚ) : WithTop ℚ) ≤ ((v c : ℚ) : WithTop ℚ) := by
                exact_mod_cast hdc
              exact lt_of_le_of_lt hle hlt
            simp [hcd, h1, hvb]
    · simp only [hp, if_false, Bool.false_eq_true]
      exact ih bd bv

/-! ## Claim C1 -/

/-- C1: for every ghost centered on a tile, not Frightened, with a
target, `Ghost._choose_direction` picks, among the four cardinal
directions excluding the exact reverse of the current direction and
those whose neighboring tile is not walkable, the direction whose
neighbor-tile center has the strictly smallest (squared) Euclidean
distance to the target, ties resolved in favor of the first in the
fixed check order Up, Down, Left, Right (`List.argmin` keeps the
earliest minimizer); when no candidate remains the current direction is
kept. -/
theorem C1_choose_direction_argmin (m : GameMap) (rng : ℕ) (g : Ghost)
    (t : Position) (hc : g.is_centered_on_tile m = true)
    (hf : g.state ≠ GhostState.FRIGHTENED) (ht : g.target = some t) :
    (g.choose_direction m rng).direction = specChooseDirection m g t := by
  have htn : ¬ g.target = none := by rw [ht]; simp
  simp only [Ghost.choose_direction, hc, hf, htn, not_true, if_false,
    if_true, ite_false, ite_true]
  rw [choose_loop_eq_selectLoop m g t ht, selectLoop_argmin]
  have hfilter :
      directionOrder.filter
          (fun d => !g.is_opposite_direction d &&
            m.is_walkable ((g.position.to_grid).1 + d.value.1)
              ((g.position.to_grid).2 + d.value.2)) =
        specCandidateDirections m g := by
    simp only [specCandidateDirections]
    apply List.filter_congr
    intro d _
    rw [is_opposite_direction_eq]
    rfl
  rw [hfilter]
  rcases hA : (specCandidateDirections m g).argmin (specNeighborDist2 m g t)
    with _ | c
  · simp [specChooseDirection, hA]
  · have hlt : ((specNeighborDist2 m g t c : ℚ) : WithTop ℚ) < ⊤ :=
      WithTop.coe_lt_top _
    simp [specChooseDirection, hA, hlt]

/-- Witness for C1 at a concrete input: a Chase ghost centered at
(45, 45) heading right, targeting (285, 255). -/
theorem C1_choose_direction_argmin_witness :
    ((Ghost.mk ⟨45, 45⟩ ⟨45, 45⟩ .RIGHT 2 (some ⟨285, 255⟩) .CHASE .ACTIVE 0
          0).choose_direction standardMap 0).direction =
      specChooseDirection standardMap
        (Ghost.mk ⟨45, 45⟩ ⟨45, 45⟩ .RIGHT 2 (some ⟨285, 255⟩) .CHASE .ACTIVE
          0 0) ⟨285, 255⟩ := by
  apply C1_choose_direction_argmin
  · simp only [Ghost.is_centered_on_tile, Position.to_grid,
      GameMap.grid_to_pixel, TILE_SIZE, decide_eq_true_eq]
    norm_num
  · decide
  · rfl

/-! ## The two wall-blocking policies -/

set_option maxHeartbeats 1600000 in
/-- `PacMan._move` realizes the spec's clamp-at-center policy: clamp to
the current tile's center exactly when the candidate has moved past the
center toward a non-walkable next tile. -/
theorem pacman_move_spec (m : GameMap) (p : PacMan)
    (h : p.direction ≠ Direction.NONE) :
    (p.move m).position =
      specClampPolicy m p.position p.direction
        (p.speed * p.speed_multiplier) := by
  cases hd : p.direction with
  | NONE => exact absurd hd h
  | RIGHT =>
    simp only [PacMan.move, specClampPolicy, wrapX, hd, Direction.value]
    rw [if_neg (show ¬(Direction.RIGHT = Direction.NONE) by decide)]
    split_ifs <;>
      first
        | rfl
        | (exfalso
           simp_all only [Int.cast_one, Int.cast_zero, one_mul, mul_one,
             zero_mul, mul_zero, true_and, false_and, false_or, or_false,
             lt_self_iff_false, gt_iff_lt, sub_pos, not_true_eq_false,
             not_false_eq_true, and_true, true_or, or_true]
           tauto)
  | LEFT =>
    simp only [PacMan.move, specClampPolicy, wrapX, hd, Direction.value]
    rw [if_neg (show ¬(Direction.LEFT = Direction.NONE) by decide)]
    split_ifs <;>
      first
        | rfl
        | (exfalso
           simp_all only [Int.cast_one, Int.cast_zero, Int.cast_neg,
             one_mul, mul_one, zero_mul, mul_zero, neg_mul, mul_neg,
             neg_neg, true_and, false_and, false_or, or_false,
             lt_self_iff_false, gt_iff_lt, sub_pos, neg_pos, sub_neg,
             not_true_eq_false, not_false_eq_true, and_true, true_or,
             or_true]
           tauto)
  | UP =>
    simp only [PacMan.move, specClampPolicy, wrapX, hd, Direction.value]
    rw [if_neg (show ¬(Direction.UP = Direction.NONE) by decide)]
    split_ifs <;>
      first
        | rfl
        | (exfalso
           simp_all only [Int.cast_one, Int.cast_zero, Int.cast_neg,
             one_mul, mul_one, zero_mul, mul_zero, neg_mul, mul_neg,
             neg_neg, true_and, false_and, false_or, or_false,
             lt_self_iff_false, gt_iff_lt, sub_pos, neg_pos, sub_neg,
             not_true_eq_false, not_false_eq_true, and_true, true_or,
             or_true]
           tauto)
  | DOWN =>
    simp only [PacMan.move, specClampPolicy, wrapX, hd, Direction.value]
    rw [if_neg (show ¬(Direction.DOWN = Direction.NONE) by decide)]
    split_ifs <;>
      first
        | rfl
        | (exfalso
           simp_all only [Int.cast_one, Int.cast_zero, one_mul, mul_one,
             zero_mul, mul_zero, true_and, false_and, false_or, or_false,
             lt_self_iff_false, gt_iff_lt, sub_pos, not_true_eq_false,
             not_false_eq_true, and_true, true_or, or_true]
           tauto)

/-- `Ghost._move` realizes the candidate-tile policy: take the wrapped
candidate whenever its own tile is walkable, clamp to the current
tile's center only otherwise. -/
theorem ghost_move_spec (m : GameMap) (g : Ghost) :
    (g.move m).position =
      specTileWalkPolicy m g.position g.direction
        (g.speed *
          (if g.is_in_tunnel then TUNNEL_SPEED_MULTIPLIER else 1)) := by
  simp only [Ghost.move, Ghost.move_candidate, specTileWalkPolicy, wrapX]
  split_ifs <;> rfl

/-! ## Claim C2 -/

/-- C2 fails as stated: the two movement steps do not implement the
same wall-blocking policy.  At the same position (44, 45), direction
Left, effective speed 2 in the standard maze (the tile left of (1, 1)
is a wall), the player's step clamps to the tile center (45, 45) —
the candidate 42 is past the center 45 — while the ghost's step
accepts the candidate (42, 45), because the candidate still lies in
the walkable tile (1, 1). -/
theorem C2_counterexample :
    (PacMan.move standardMap ⟨⟨44, 45⟩, .LEFT, 2, 1, 0, 3⟩).position =
        ⟨45, 45⟩ ∧
      (Ghost.move standardMap
          (Ghost.mk ⟨44, 45⟩ ⟨44, 45⟩ .LEFT 2 none .SCATTER .ACTIVE 0
            0)).position = ⟨42, 45⟩ ∧
      (Ghost.mk ⟨44, 45⟩ ⟨44, 45⟩ .LEFT 2 none .SCATTER .ACTIVE 0
          0).speed *
          (if (Ghost.mk ⟨44, 45⟩ ⟨44, 45⟩ .LEFT 2 none .SCATTER .ACTIVE 0
              0).is_in_tunnel then TUNNEL_SPEED_MULTIPLIER else 1) =
        (2 : ℚ) * 1 ∧
      Position.mk 45 45 ≠ Position.mk 42 45 := by
  have hw01 : standardMap.is_walkable 0 1 = false := by decide
  have hw11 : standardMap.is_walkable 1 1 = true := by decide
  have hwd : standardMap.width = 19 := by decide
  refine ⟨?_, ?_, ?_, by decide⟩
  · norm_num [PacMan.move, GameMap.pixel_to_grid, GameMap.ratTrunc,
      GameMap.grid_to_pixel, hwd, TILE_SIZE, Direction.value]
    rw [if_neg (show ¬(Direction.LEFT = Direction.NONE) by decide),
      if_pos hw01]
  · norm_num [Ghost.move, Ghost.move_candidate, Ghost.is_in_tunnel,
      Position.to_grid, GameMap.grid_to_pixel, hwd, TILE_SIZE, TUNNEL_ROW,
      Direction.value]
    rw [if_pos hw11]
  · norm_num [Ghost.is_in_tunnel, Position.to_grid, TILE_SIZE, TUNNEL_ROW]

/-- C2 (amended): the player's movement step implements the spec's
clamp-at-center policy — at every position, direction (other than
None) and speed, the player is clamped exactly to the current tile's
center when the candidate crosses the tile's center toward a
non-walkable next tile, and otherwise takes the horizontally wrapped
candidate — while the ghost's movement step implements a different,
clamp-at-tile-boundary policy: it takes the wrapped candidate whenever
the candidate's own tile is walkable and clamps to the current tile's
center only otherwise.  The two policies are not the same function of
position, direction and speed. -/
theorem C2_wall_policies (m : GameMap) (p : PacMan) (g : Ghost)
    (h : p.direction ≠ Direction.NONE) :
    (p.move m).position =
        specClampPolicy m p.position p.direction
          (p.speed * p.speed_multiplier) ∧
      (g.move m).position =
        specTileWalkPolicy m g.position g.direction
          (g.speed *
            (if g.is_in_tunnel then TUNNEL_SPEED_MULTIPLIER else 1)) :=
  ⟨pacman_move_spec m p h, ghost_move_spec m g⟩

/-- Witness for C2 (amended) at a concrete input: the player and ghost
of the counterexample configuration. -/
theorem C2_wall_policies_witness :
    (PacMan.move standardMap ⟨⟨44, 45⟩, .LEFT, 2, 1, 0, 3⟩).position =
        specClampPolicy standardMap ⟨44, 45⟩ .LEFT ((2 : ℚ) * 1) ∧
      (Ghost.move standardMap
          (Ghost.mk ⟨44, 45⟩ ⟨44, 45⟩ .LEFT 2 none .SCATTER .ACTIVE 0
            0)).position =
        specTileWalkPolicy standardMap ⟨44, 45⟩ .LEFT
          ((2 : ℚ) *
            (if (Ghost.mk ⟨44, 45⟩ ⟨44, 45⟩ .LEFT 2 none .SCATTER .ACTIVE 0
                0).is_in_tunnel then TUNNEL_SPEED_MULTIPLIER else 1)) :=
  C2_wall_policies standardMap ⟨⟨44, 45⟩, .LEFT, 2, 1, 0, 3⟩
    (Ghost.mk ⟨44, 45⟩ ⟨44, 45⟩ .LEFT 2 none .SCATTER .ACTIVE 0 0)
    (by decide)

end PycMan
